import Mathlib

/-!
Shallow embedding of the ISL28022 power-monitor driver (ISL28022.py).
Register reads/writes over the i2c transport are external collaborators;
the pure computations of the class are embedded as Lean functions over ℕ
(for 16-bit register words, with explicit masks) and ℚ (for the Python
float arithmetic, which on the decimal constants involved is exact).
-/

namespace ISL28022

/-- Register addresses (TABLE 2), from `ISL28022.__init__`. -/
def register_config : ℕ := 0x00

def register_shunt_voltage : ℕ := 0x01

def register_bus_voltage : ℕ := 0x02

def register_power : ℕ := 0x03

def register_current : ℕ := 0x04

def register_calibration : ℕ := 0x05

/-- Configuration register bits (TABLE 3), the `self._config_bits`
dictionary from `ISL28022.__init__`.  Keys outside the table are mapped
to 0 to totalise the Python dictionary lookup; the source only ever
looks up the listed keys. -/
def config_bits : String → ℕ
  | "RST" => 0b1000000000000000
  | "BRNG1" => 0b0100000000000000
  | "BRNG0" => 0b0010000000000000
  | "PG1" => 0b0001000000000000
  | "PG0" => 0b0000100000000000
  | "BADC3" => 0b0000010000000000
  | "BADC2" => 0b0000001000000000
  | "BADC1" => 0b0000000100000000
  | "BADC0" => 0b0000000010000000
  | "SADC3" => 0b0000000001000000
  | "SADC2" => 0b0000000000100000
  | "SADC1" => 0b0000000000010000
  | "SADC0" => 0b0000000000001000
  | "MODE2" => 0b0000000000000100
  | "MODE1" => 0b0000000000000010
  | "MODE0" => 0b0000000000000001
  | _ => 0

/-- Table `self._pow_table16` from `ISL28022.__init__`. -/
def pow_table16 : List ℕ :=
  [ 0b0000000000000001,
    0b0000000000000010,
    0b0000000000000100,
    0b0000000000001000,
    0b0000000000010000,
    0b0000000000100000,
    0b0000000001000000,
    0b0000000010000000,
    0b0000000100000000,
    0b0000001000000000,
    0b0000010000000000,
    0b0000100000000000,
    0b0001000000000000,
    0b0010000000000000,
    0b0100000000000000,
    0b1000000000000000 ]

/-- Method `_mask`: OR together the configuration-register bit masks of
the named flags. -/
def mask (flags : List String) : ℕ :=
  flags.foldl (fun bits i => bits ||| config_bits i) 0

/-- Method `modes`: the low three (mode) bits of the configuration word. -/
def modes (config : ℕ) : ℕ :=
  config &&& 0b0000000000000111

/-- Method `_determine_configuration_register`, as a function of the
stored parameters (`self._bus_voltage`, `self._shunt_voltage`,
`self._bavg`, `self._savg`) and the current configuration word
(read through `modes`).  The chained Python `if` statements become
sequential conditional updates of `cfg`.  In the `savg ≠ 0` branch the
source tests `self._bavg == 1` (a typo for `self._savg`), but the body
of that test is `pass`, so it has no effect and nothing is emitted
for it here. -/
def determine_configuration_register
    (bus_voltage shunt_voltage : ℚ) (bavg savg : ℕ) (config : ℕ) : ℕ :=
  let cfg := modes config
  let cfg := if bus_voltage = 32.0 then cfg ||| config_bits "BRNG0" else cfg
  let cfg := if bus_voltage = 60.0 then cfg ||| config_bits "BRNG1" else cfg
  let cfg := if shunt_voltage = 80.0 then cfg ||| config_bits "PG0" else cfg
  let cfg := if shunt_voltage = 160.0 then cfg ||| config_bits "PG1" else cfg
  let cfg := if shunt_voltage = 320.0 then
      (cfg ||| config_bits "PG0") ||| config_bits "PG1"
    else cfg
  let cfg :=
    if bavg = 0 then
      let cfg := if bus_voltage = 60.0 then cfg ||| config_bits "BADC1" else cfg
      let cfg := if bus_voltage = 32.0 then cfg ||| config_bits "BADC0" else cfg
      cfg
    else
      let cfg := cfg ||| config_bits "BADC3"
      let cfg := if bavg = 2 then cfg ||| config_bits "BADC0" else cfg
      let cfg := if bavg = 4 then cfg ||| config_bits "BADC1" else cfg
      let cfg := if bavg = 8 then
          (cfg ||| config_bits "BADC0") ||| config_bits "BADC1"
        else cfg
      let cfg := if bavg = 16 then cfg ||| config_bits "BADC2" else cfg
      let cfg := if bavg = 32 then
          (cfg ||| config_bits "BADC2") ||| config_bits "BADC0"
        else cfg
      let cfg := if bavg = 64 then
          (cfg ||| config_bits "BADC2") ||| config_bits "BADC1"
        else cfg
      let cfg := if bavg = 128 then
          ((cfg ||| config_bits "BADC2") ||| config_bits "BADC1") ||| config_bits "BADC0"
        else cfg
      cfg
  let cfg :=
    if savg = 0 then
      let cfg := if shunt_voltage = 320.0 then
          (cfg ||| config_bits "SADC0") ||| config_bits "SADC1"
        else cfg
      let cfg := if shunt_voltage = 160.0 then cfg ||| config_bits "SADC1" else cfg
      let cfg := if shunt_voltage = 80.0 then cfg ||| config_bits "SADC0" else cfg
      cfg
    else
      let cfg := cfg ||| config_bits "SADC3"
      let cfg := if savg = 2 then cfg ||| config_bits "SADC0" else cfg
      let cfg := if savg = 4 then cfg ||| config_bits "SADC1" else cfg
      let cfg := if savg = 8 then
          (cfg ||| config_bits "SADC0") ||| config_bits "SADC1"
        else cfg
      let cfg := if savg = 16 then cfg ||| config_bits "SADC2" else cfg
      let cfg := if savg = 32 then
          (cfg ||| config_bits "SADC2") ||| config_bits "SADC0"
        else cfg
      let cfg := if savg = 64 then
          (cfg ||| config_bits "SADC2") ||| config_bits "SADC1"
        else cfg
      let cfg := if savg = 128 then
          ((cfg ||| config_bits "SADC2") ||| config_bits "SADC1") ||| config_bits "SADC0"
        else cfg
      cfg
  cfg

/-- The configuration word as assembled in `ISL28022.__init__`:
`self._config` is first set to `mode & 0b111`, then
`_determine_configuration_register` rebuilds it from the parameters. -/
def init_config (full_scale shunt_voltage : ℚ) (bavg savg mode : ℕ) : ℕ :=
  determine_configuration_register full_scale shunt_voltage bavg savg (mode &&& 0b111)

/-- Method `_resolution`: bit resolution of the bus (`"BRNG"`) or shunt
(`"PG"`) axis, decoded from the configuration word.  The Python default
`_res = 0` survives only for arguments outside the asserted set. -/
def resolution (config : ℕ) (w : String) : ℕ :=
  let res := 0
  let bits := config &&& mask [w ++ "1", w ++ "0"]
  let res :=
    if w = "PG" then
      let res := if bits = 0 then 12 else res
      let res := if bits = mask [w ++ "0"] then 13 else res
      let res := if bits = mask [w ++ "1"] then 14 else res
      let res := if bits = mask [w ++ "1", w ++ "0"] then 15 else res
      res
    else res
  let res :=
    if w = "BRNG" then
      let res := if bits = 0 then 12 else res
      let res := if bits = mask [w ++ "0"] then 13 else res
      let res := if bits = mask [w ++ "1"] then 14 else res
      let res := if bits = mask [w ++ "1", w ++ "0"] then 14 else res
      res
    else res
  res

/-- Table `_conversion_times` from `_converson_delay` (seconds). -/
def conversion_times : List ℚ :=
  [ 0.000080, 0.000146, 0.000284, 0.000559,
    0.001110, 0.002210, 0.004410, 0.008810,
    0.017610, 0.035210, 0.070410 ]

/-- Method `_converson_delay` (sic).  `config` is the stored
configuration word `self._config`.  Note: in the shunt-voltage branch
the source masks `self._register_config` — the register *address*
constant `0x00` — rather than `self._config`; that is reproduced
faithfully here. -/
def converson_delay (config : ℕ) (reg : ℕ) : ℚ :=
  let delay : ℚ := 0.0
  let delay :=
    if reg = register_shunt_voltage then
      let bits := register_config &&& mask ["SADC3", "SADC2", "SADC1", "SADC0"]
      let delay := if bits = 0 then conversion_times.getD 0 0 else delay
      let delay := if bits = mask ["SADC0"] then conversion_times.getD 1 0 else delay
      let delay := if bits = mask ["SADC1"] then conversion_times.getD 2 0 else delay
      let delay := if bits = mask ["SADC1", "SADC0"] then conversion_times.getD 3 0 else delay
      let delay := if bits = mask ["SADC3", "SADC0"] then conversion_times.getD 4 0 else delay
      let delay := if bits = mask ["SADC3", "SADC1"] then conversion_times.getD 5 0 else delay
      let delay := if bits = mask ["SADC3", "SADC1", "SADC0"] then conversion_times.getD 6 0 else delay
      let delay := if bits = mask ["SADC3", "SADC2"] then conversion_times.getD 7 0 else delay
      let delay := if bits = mask ["SADC3", "SADC2", "SADC0"] then conversion_times.getD 8 0 else delay
      let delay := if bits = mask ["SADC3", "SADC2", "SADC1"] then conversion_times.getD 9 0 else delay
      let delay := if bits = mask ["SADC3", "SADC2", "SADC1", "SADC0"] then conversion_times.getD 10 0 else delay
      delay
    else delay
  let delay :=
    if reg = register_bus_voltage then
      let bits := config &&& mask ["BADC3", "BADC2", "BADC1", "BADC0"]
      let delay := if bits = 0 then conversion_times.getD 0 0 else delay
      let delay := if bits = mask ["BADC0"] then conversion_times.getD 1 0 else delay
      let delay := if bits = mask ["BADC1"] then conversion_times.getD 2 0 else delay
      let delay := if bits = mask ["BADC1", "BADC0"] then conversion_times.getD 3 0 else delay
      let delay := if bits = mask ["BADC3", "BADC0"] then conversion_times.getD 4 0 else delay
      let delay := if bits = mask ["BADC3", "BADC1"] then conversion_times.getD 5 0 else delay
      let delay := if bits = mask ["BADC3", "BADC1", "BADC0"] then conversion_times.getD 6 0 else delay
      let delay := if bits = mask ["BADC3", "BADC2"] then conversion_times.getD 7 0 else delay
      let delay := if bits = mask ["BADC3", "BADC2", "BADC0"] then conversion_times.getD 8 0 else delay
      let delay := if bits = mask ["BADC3", "BADC2", "BADC1"] then conversion_times.getD 9 0 else delay
      let delay := if bits = mask ["BADC3", "BADC2", "BADC1", "BADC0"] then conversion_times.getD 10 0 else delay
      delay
    else delay
  delay

/-- Method `_buf_to_int`: combine a big-endian two-byte buffer into a
16-bit integer.  The Python `assert len(buf) >= 2` (an AssertionError
on shorter buffers) is modelled by returning `none`. -/
def buf_to_int (buf : List ℕ) : Option ℕ :=
  if 2 ≤ buf.length then some ((buf.getD 0 0 <<< 8) ||| buf.getD 1 0) else none

/-- Method `_twos_complement16`.  `_neg = val16 & pow_table16[bits]`,
the accumulator starts at `-1` when the sign bit is set and `0`
otherwise, and the loop runs over `range(0, bits - 1)`.  The Python
float accumulator only ever holds integers, so the result is an ℤ. -/
def twos_complement16 (val16 bits : ℕ) : ℤ :=
  let neg := val16 &&& pow_table16.getD bits 0
  let v : ℤ := if neg ≠ 0 then -1 else 0
  (List.range (bits - 1)).foldl
    (fun v n =>
      if neg ≠ 0 then
        (if val16 &&& pow_table16.getD n 0 = 0 then v + -(pow_table16.getD n 0 : ℤ) else v)
      else
        (if val16 &&& pow_table16.getD n 0 ≠ 0 then v + (pow_table16.getD n 0 : ℤ) else v))
    v

/-- Constant `self._VbusLSB` (volts), the electrical-spec value Vbus_step. -/
def VbusLSB : ℚ := 0.004

/-- The value computation of method `bus_voltage` after the raw word
`raw` has been read and `bits = resolution config "BRNG"` decoded
(source lines 707-718).  Bit 0 of `raw` is the overflow flag, only
printed, never folded into the value. -/
def bus_voltage_from (raw bits : ℕ) : ℚ :=
  let ret : ℕ := 0
  let ret := if bits = 12 then (raw &&& 0b0111111111111000) >>> 3 else ret
  let ret := if bits = 13 then (raw &&& 0b1111111111111000) >>> 3 else ret
  let ret := if bits = 14 then (raw &&& 0b1111111111111100) >>> 2 else ret
  (ret : ℚ) * VbusLSB

/-- The magnitude loop of method `power`: sum the place values of the
set bits among positions `0..14` of the raw power register word. -/
def power_magnitude (raw : ℕ) : ℕ :=
  (List.range 15).foldl
    (fun p n => if raw &&& pow_table16.getD n 0 ≠ 0 then p + pow_table16.getD n 0 else p)
    0

/-- The value computation of method `power`:
`float(_p) * self._CurrentLSB * self._VbusLSB * 5000.0`. -/
def power (raw : ℕ) (currentLSB vbusLSB : ℚ) : ℚ :=
  (power_magnitude raw : ℚ) * currentLSB * vbusLSB * 5000.0

/-- Method `_mOhm2Ohm`. -/
def mOhm2Ohm (mOhm : ℚ) : ℚ := mOhm / 1000.0

/-- Method `_mV2V`. -/
def mV2V (mV : ℚ) : ℚ := mV / 1000.0

/-- Value `self._CurrentFS` from `ISL28022.__init__`: full-scale current. -/
def CurrentFS (shunt_voltage shunt_r : ℚ) : ℚ :=
  mV2V shunt_voltage / mOhm2Ohm shunt_r

/-- Value `self._CurrentLSB` from `ISL28022.__init__`. -/
def CurrentLSB (shunt_voltage shunt_r : ℚ) (config : ℕ) : ℚ :=
  CurrentFS shunt_voltage shunt_r / 2 ^ resolution config "PG"

/-- Value `self._CalRegVal` from `ISL28022.__init__`. -/
def CalRegVal (shunt_voltage shunt_r : ℚ) (config : ℕ) : ℚ :=
  ((2 : ℚ) ^ 12 * 0.000010) / (CurrentLSB shunt_voltage shunt_r config * mOhm2Ohm shunt_r)

/-- Value `self._calib = int(self._CalRegVal) & 0xfffe`.  Python `int()`
truncates toward zero; on the nonnegative values arising here that is
the floor, modelled by `Int.toNat ∘ Int.floor`. -/
def calib (shunt_voltage shunt_r : ℚ) (config : ℕ) : ℕ :=
  (⌊CalRegVal shunt_voltage shunt_r config⌋).toNat &&& 0xfffe

/-- Method `power_down`: clear the low three (mode) bits of the stored
configuration word (the subsequent device write is transport I/O). -/
def power_down (config : ℕ) : ℕ :=
  config &&& 0b1111111111111000


theorem and_or_right (x y m : ℕ) : (x ||| y) &&& m = (x &&& m) ||| (y &&& m) := by
  rw [Nat.and_comm _ m, Nat.and_or_distrib_left, Nat.and_comm m x, Nat.and_comm m y]

theorem ite_and_right (c : Prop) [Decidable c] (a b m : ℕ) :
    (if c then a else b) &&& m = if c then a &&& m else b &&& m :=
  apply_ite (· &&& m) c a b

theorem or_ite_push (c : Prop) [Decidable c] (x k : ℕ) :
    (if c then x ||| k else x) = x ||| (if c then k else 0) := by
  split_ifs <;> simp

theorem or_ite_merge (c : Prop) [Decidable c] (x s t : ℕ) :
    (if c then x ||| s else x ||| t) = x ||| (if c then s else t) := by
  split_ifs <;> rfl

theorem cb_BRNG1 : config_bits "BRNG1" = 16384 := rfl

theorem cb_BRNG0 : config_bits "BRNG0" = 8192 := rfl

theorem cb_PG1 : config_bits "PG1" = 4096 := rfl

theorem cb_PG0 : config_bits "PG0" = 2048 := rfl

theorem cb_BADC3 : config_bits "BADC3" = 1024 := rfl

theorem cb_BADC2 : config_bits "BADC2" = 512 := rfl

theorem cb_BADC1 : config_bits "BADC1" = 256 := rfl

theorem cb_BADC0 : config_bits "BADC0" = 128 := rfl

theorem cb_SADC3 : config_bits "SADC3" = 64 := rfl

theorem cb_SADC2 : config_bits "SADC2" = 32 := rfl

theorem cb_SADC1 : config_bits "SADC1" = 16 := rfl

theorem cb_SADC0 : config_bits "SADC0" = 8 := rfl

theorem low3_and_mask (c0 M : ℕ) (h : (7:ℕ) &&& M = 0) : (c0 &&& 7) &&& M = 0 := by
  rw [Nat.and_assoc, h, Nat.and_zero]

theorem pg_field (bv sv : ℚ) (bavg savg c0 : ℕ) :
    determine_configuration_register bv sv bavg savg c0 &&& 6144 =
      ((if sv = 80 then 2048 else 0) ||| (if sv = 160 then 4096 else 0)) |||
        (if sv = 320 then 6144 else 0) := by
  simp only [determine_configuration_register, modes, cb_BRNG1, cb_BRNG0, cb_PG1, cb_PG0,
    cb_BADC3, cb_BADC2, cb_BADC1, cb_BADC0, cb_SADC3, cb_SADC2, cb_SADC1, cb_SADC0,
    (show (16.0:ℚ) = 16 from by norm_num), (show (32.0:ℚ) = 32 from by norm_num),
    (show (60.0:ℚ) = 60 from by norm_num), (show (80.0:ℚ) = 80 from by norm_num),
    (show (160.0:ℚ) = 160 from by norm_num), (show (320.0:ℚ) = 320 from by norm_num)]
  simp only [Nat.or_assoc, or_ite_push, or_ite_merge]
  simp only [and_or_right, ite_and_right, low3_and_mask _ _ (show (7:ℕ) &&& 6144 = 0 from by decide), Nat.zero_and,
    (show (8192:ℕ) &&& 6144 = 0 from by decide),
    (show (16384:ℕ) &&& 6144 = 0 from by decide),
    (show (2048:ℕ) &&& 6144 = 2048 from by decide),
    (show (4096:ℕ) &&& 6144 = 4096 from by decide),
    (show (1024:ℕ) &&& 6144 = 0 from by decide),
    (show (512:ℕ) &&& 6144 = 0 from by decide),
    (show (256:ℕ) &&& 6144 = 0 from by decide),
    (show (128:ℕ) &&& 6144 = 0 from by decide),
    (show (64:ℕ) &&& 6144 = 0 from by decide),
    (show (32:ℕ) &&& 6144 = 0 from by decide),
    (show (16:ℕ) &&& 6144 = 0 from by decide),
    (show (8:ℕ) &&& 6144 = 0 from by decide),
    Nat.or_zero, Nat.zero_or, ite_self]
  all_goals (split_ifs <;> decide)

theorem brng_field (bv sv : ℚ) (bavg savg c0 : ℕ) :
    determine_configuration_register bv sv bavg savg c0 &&& 24576 =
      (if bv = 32 then 8192 else 0) ||| (if bv = 60 then 16384 else 0) := by
  simp only [determine_configuration_register, modes, cb_BRNG1, cb_BRNG0, cb_PG1, cb_PG0,
    cb_BADC3, cb_BADC2, cb_BADC1, cb_BADC0, cb_SADC3, cb_SADC2, cb_SADC1, cb_SADC0,
    (show (16.0:ℚ) = 16 from by norm_num), (show (32.0:ℚ) = 32 from by norm_num),
    (show (60.0:ℚ) = 60 from by norm_num), (show (80.0:ℚ) = 80 from by norm_num),
    (show (160.0:ℚ) = 160 from by norm_num), (show (320.0:ℚ) = 320 from by norm_num)]
  simp only [Nat.or_assoc, or_ite_push, or_ite_merge]
  simp only [and_or_right, ite_and_right, low3_and_mask _ _ (show (7:ℕ) &&& 24576 = 0 from by decide), Nat.zero_and,
    (show (8192:ℕ) &&& 24576 = 8192 from by decide),
    (show (16384:ℕ) &&& 24576 = 16384 from by decide),
    (show (2048:ℕ) &&& 24576 = 0 from by decide),
    (show (4096:ℕ) &&& 24576 = 0 from by decide),
    (show (1024:ℕ) &&& 24576 = 0 from by decide),
    (show (512:ℕ) &&& 24576 = 0 from by decide),
    (show (256:ℕ) &&& 24576 = 0 from by decide),
    (show (128:ℕ) &&& 24576 = 0 from by decide),
    (show (64:ℕ) &&& 24576 = 0 from by decide),
    (show (32:ℕ) &&& 24576 = 0 from by decide),
    (show (16:ℕ) &&& 24576 = 0 from by decide),
    (show (8:ℕ) &&& 24576 = 0 from by decide),
    Nat.or_zero, Nat.zero_or, ite_self]

theorem badc_field (bv sv : ℚ) (bavg savg c0 : ℕ) :
    determine_configuration_register bv sv bavg savg c0 &&& 1920 =
      if bavg = 0 then
        (if bv = 60 then 256 else 0) ||| (if bv = 32 then 128 else 0)
      else
        1024 ||| ((if bavg = 2 then 128 else 0) |||
          ((if bavg = 4 then 256 else 0) ||| ((if bavg = 8 then 384 else 0) |||
            ((if bavg = 16 then 512 else 0) ||| ((if bavg = 32 then 640 else 0) |||
              ((if bavg = 64 then 768 else 0) ||| (if bavg = 128 then 896 else 0))))))) := by
  simp only [determine_configuration_register, modes, cb_BRNG1, cb_BRNG0, cb_PG1, cb_PG0,
    cb_BADC3, cb_BADC2, cb_BADC1, cb_BADC0, cb_SADC3, cb_SADC2, cb_SADC1, cb_SADC0,
    (show (16.0:ℚ) = 16 from by norm_num), (show (32.0:ℚ) = 32 from by norm_num),
    (show (60.0:ℚ) = 60 from by norm_num), (show (80.0:ℚ) = 80 from by norm_num),
    (show (160.0:ℚ) = 160 from by norm_num), (show (320.0:ℚ) = 320 from by norm_num)]
  simp only [Nat.or_assoc, or_ite_push, or_ite_merge]
  simp only [and_or_right, ite_and_right, low3_and_mask _ _ (show (7:ℕ) &&& 1920 = 0 from by decide), Nat.zero_and,
    (show (8192:ℕ) &&& 1920 = 0 from by decide),
    (show (16384:ℕ) &&& 1920 = 0 from by decide),
    (show (2048:ℕ) &&& 1920 = 0 from by decide),
    (show (4096:ℕ) &&& 1920 = 0 from by decide),
    (show (1024:ℕ) &&& 1920 = 1024 from by decide),
    (show (512:ℕ) &&& 1920 = 512 from by decide),
    (show (256:ℕ) &&& 1920 = 256 from by decide),
    (show (128:ℕ) &&& 1920 = 128 from by decide),
    (show (64:ℕ) &&& 1920 = 0 from by decide),
    (show (32:ℕ) &&& 1920 = 0 from by decide),
    (show (16:ℕ) &&& 1920 = 0 from by decide),
    (show (8:ℕ) &&& 1920 = 0 from by decide),
    Nat.or_zero, Nat.zero_or, ite_self]
  all_goals (split_ifs <;> decide)

theorem sadc_field (bv sv : ℚ) (bavg savg c0 : ℕ) :
    determine_configuration_register bv sv bavg savg c0 &&& 120 =
      if savg = 0 then
        (if sv = 320 then 24 else 0) |||
          ((if sv = 160 then 16 else 0) ||| (if sv = 80 then 8 else 0))
      else
        64 ||| ((if savg = 2 then 8 else 0) |||
          ((if savg = 4 then 16 else 0) ||| ((if savg = 8 then 24 else 0) |||
            ((if savg = 16 then 32 else 0) ||| ((if savg = 32 then 40 else 0) |||
              ((if savg = 64 then 48 else 0) ||| (if savg = 128 then 56 else 0))))))) := by
  simp only [determine_configuration_register, modes, cb_BRNG1, cb_BRNG0, cb_PG1, cb_PG0,
    cb_BADC3, cb_BADC2, cb_BADC1, cb_BADC0, cb_SADC3, cb_SADC2, cb_SADC1, cb_SADC0,
    (show (16.0:ℚ) = 16 from by norm_num), (show (32.0:ℚ) = 32 from by norm_num),
    (show (60.0:ℚ) = 60 from by norm_num), (show (80.0:ℚ) = 80 from by norm_num),
    (show (160.0:ℚ) = 160 from by norm_num), (show (320.0:ℚ) = 320 from by norm_num)]
  simp only [Nat.or_assoc, or_ite_push, or_ite_merge]
  simp only [and_or_right, ite_and_right, low3_and_mask _ _ (show (7:ℕ) &&& 120 = 0 from by decide), Nat.zero_and,
    (show (8192:ℕ) &&& 120 = 0 from by decide),
    (show (16384:ℕ) &&& 120 = 0 from by decide),
    (show (2048:ℕ) &&& 120 = 0 from by decide),
    (show (4096:ℕ) &&& 120 = 0 from by decide),
    (show (1024:ℕ) &&& 120 = 0 from by decide),
    (show (512:ℕ) &&& 120 = 0 from by decide),
    (show (256:ℕ) &&& 120 = 0 from by decide),
    (show (128:ℕ) &&& 120 = 0 from by decide),
    (show (64:ℕ) &&& 120 = 64 from by decide),
    (show (32:ℕ) &&& 120 = 32 from by decide),
    (show (16:ℕ) &&& 120 = 16 from by decide),
    (show (8:ℕ) &&& 120 = 8 from by decide),
    Nat.or_zero, Nat.zero_or, ite_self]
  all_goals (split_ifs <;> decide)

theorem and_pow (c i : ℕ) : c &&& 2 ^ i = if c.testBit i then 2 ^ i else 0 := by
  apply Nat.eq_of_testBit_eq
  intro j
  rw [Nat.testBit_and, apply_ite (fun x => Nat.testBit x j)]
  by_cases h : i = j
  · subst h
    cases hc : c.testBit i <;> simp [hc, Nat.testBit_two_pow]
  · cases hc : c.testBit i <;> simp [hc, Nat.testBit_two_pow_of_ne h]

theorem and_6144 (c : ℕ) :
    c &&& 6144 = (if c.testBit 12 then 4096 else 0) ||| (if c.testBit 11 then 2048 else 0) := by
  rw [(show (6144:ℕ) = 4096 ||| 2048 from by decide), Nat.and_or_distrib_left,
    (show (4096:ℕ) = 2 ^ 12 from by norm_num), (show (2048:ℕ) = 2 ^ 11 from by norm_num),
    and_pow, and_pow]

theorem and_24576 (c : ℕ) :
    c &&& 24576 = (if c.testBit 14 then 16384 else 0) ||| (if c.testBit 13 then 8192 else 0) := by
  rw [(show (24576:ℕ) = 16384 ||| 8192 from by decide), Nat.and_or_distrib_left,
    (show (16384:ℕ) = 2 ^ 14 from by norm_num), (show (8192:ℕ) = 2 ^ 13 from by norm_num),
    and_pow, and_pow]

theorem resolution_PG (c : ℕ) :
    resolution c "PG" =
      if c.testBit 12 then (if c.testBit 11 then 15 else 14)
      else (if c.testBit 11 then 13 else 12) := by
  have h := and_6144 c
  cases h12 : c.testBit 12 <;> cases h11 : c.testBit 11 <;>
    rw [h12, h11] at h <;>
    simp [resolution, mask, List.foldl, cb_PG1, cb_PG0, h, h12, h11]

theorem resolution_BRNG (c : ℕ) :
    resolution c "BRNG" =
      if c.testBit 14 then 14
      else (if c.testBit 13 then 13 else 12) := by
  have h := and_24576 c
  cases h14 : c.testBit 14 <;> cases h13 : c.testBit 13 <;>
    rw [h14, h13] at h <;>
    simp [resolution, mask, List.foldl, cb_BRNG1, cb_BRNG0, h, h14, h13]

theorem resolution_PG_of_init (bv sv : ℚ) (bavg savg mode : ℕ)
    (hsv : sv ∈ ([40, 80, 160, 320] : List ℚ)) :
    resolution (init_config bv sv bavg savg mode) "PG" =
      if sv = 320 then 15 else if sv = 160 then 14 else if sv = 80 then 13 else 12 := by
  simp only [List.mem_cons, List.not_mem_nil, or_false] at hsv
  rcases hsv with rfl | rfl | rfl | rfl <;>
    norm_num [resolution, mask, List.foldl, cb_PG1, cb_PG0, init_config, pg_field,
      (show ("PG" ++ "1") = "PG1" from rfl), (show ("PG" ++ "0") = "PG0" from rfl),
      (show (("PG":String) = "BRNG") = False from eq_false (by decide)),
      (show (("PG":String) = "PG") = True from eq_true rfl),
      (show (0:ℕ) ||| 4096 = 4096 from by decide),
      (show (0:ℕ) ||| 2048 = 2048 from by decide),
      (show (4096:ℕ) ||| 2048 = 6144 from by decide),
      (show (2048:ℕ) ||| 4096 = 6144 from by decide),
      (show (2048:ℕ) ||| 0 = 2048 from by decide),
      (show (4096:ℕ) ||| 0 = 4096 from by decide),
      (show (0:ℕ) ||| 0 = 0 from by decide),
      (show (0:ℕ) ||| 6144 = 6144 from by decide),
      (show (6144:ℕ) ||| 0 = 6144 from by decide)]

theorem resolution_BRNG_of_init (bv sv : ℚ) (bavg savg mode : ℕ)
    (hbv : bv ∈ ([16, 32, 60] : List ℚ)) :
    resolution (init_config bv sv bavg savg mode) "BRNG" =
      if bv = 60 then 14 else if bv = 32 then 13 else 12 := by
  simp only [List.mem_cons, List.not_mem_nil, or_false] at hbv
  rcases hbv with rfl | rfl | rfl <;>
    norm_num [resolution, mask, List.foldl, cb_BRNG1, cb_BRNG0, init_config, brng_field,
      (show ("BRNG" ++ "1") = "BRNG1" from rfl), (show ("BRNG" ++ "0") = "BRNG0" from rfl),
      (show (("BRNG":String) = "BRNG") = True from eq_true rfl),
      (show (("BRNG":String) = "PG") = False from eq_false (by decide)),
      (show (0:ℕ) ||| 16384 = 16384 from by decide),
      (show (0:ℕ) ||| 8192 = 8192 from by decide),
      (show (16384:ℕ) ||| 8192 = 24576 from by decide),
      (show (8192:ℕ) ||| 16384 = 24576 from by decide),
      (show (8192:ℕ) ||| 0 = 8192 from by decide),
      (show (16384:ℕ) ||| 0 = 16384 from by decide),
      (show (0:ℕ) ||| 0 = 0 from by decide),
      (show (0:ℕ) ||| 24576 = 24576 from by decide),
      (show (24576:ℕ) ||| 0 = 24576 from by decide)]

theorem pow_table16_getD : ∀ n : ℕ, n < 16 → pow_table16.getD n 0 = 2 ^ n := by decide

theorem fold_step {β : Type} (f : β → ℕ → β) (a : β) (m : ℕ) :
    (List.range (m + 1)).foldl f a = f ((List.range m).foldl f a) m := by
  rw [List.range_succ, List.foldl_append, List.foldl_cons, List.foldl_nil]

theorem mod_two_pow_succ (val k : ℕ) :
    val % 2 ^ (k + 1) = val % 2 ^ k + (if val.testBit k then 2 ^ k else 0) := by
  rw [pow_succ, Nat.mod_mul]
  rcases Nat.mod_two_eq_zero_or_one (val / 2 ^ k) with h | h <;>
    simp [Nat.testBit_to_div_mod, h]

theorem and_pow_ne (val k : ℕ) : (val &&& 2 ^ k ≠ 0) ↔ val.testBit k = true := by
  rw [and_pow]
  cases h : val.testBit k <;> simp [h, (Nat.two_pow_pos k).ne']

theorem twos_fold_pos (val : ℕ) :
    ∀ m : ℕ, m ≤ 16 →
      (List.range m).foldl
        (fun v n =>
          if val &&& pow_table16.getD n 0 ≠ 0 then v + (pow_table16.getD n 0 : ℤ) else v) 0
      = ((val % 2 ^ m : ℕ) : ℤ) := by
  intro m
  induction m with
  | zero => simp
  | succ k ih =>
    intro hk
    rw [fold_step, ih (by omega), pow_table16_getD k (by omega), mod_two_pow_succ]
    by_cases hb : val.testBit k
    · rw [if_pos ((and_pow_ne val k).mpr hb), if_pos hb]
      push_cast
      ring
    · rw [if_neg (by simpa using (and_pow_ne val k).not.mpr (by simp [hb])), if_neg hb]
      simp

theorem twos_fold_neg (val : ℕ) :
    ∀ m : ℕ, m ≤ 16 →
      (List.range m).foldl
        (fun v n =>
          if val &&& pow_table16.getD n 0 = 0 then v + -(pow_table16.getD n 0 : ℤ) else v) (-1)
      = ((val % 2 ^ m : ℕ) : ℤ) - 2 ^ m := by
  intro m
  induction m with
  | zero => simp
  | succ k ih =>
    intro hk
    rw [fold_step, ih (by omega), pow_table16_getD k (by omega), mod_two_pow_succ]
    by_cases hb : val.testBit k
    · rw [if_neg (by simpa using (and_pow_ne val k).mpr hb), if_pos hb]
      push_cast
      ring
    · rw [if_pos (by simpa using (and_pow_ne val k).not.mpr (by simp [hb])), if_neg hb]
      push_cast
      ring

theorem twos_complement16_eq (val bits : ℕ) (h1 : 1 ≤ bits) (h2 : bits ≤ 15) :
    twos_complement16 val bits =
      if val.testBit bits then ((val % 2 ^ (bits - 1) : ℕ) : ℤ) - 2 ^ (bits - 1)
      else ((val % 2 ^ (bits - 1) : ℕ) : ℤ) := by
  by_cases hb : val.testBit bits
  · have hne : val &&& 2 ^ bits ≠ 0 := (and_pow_ne val bits).mpr hb
    simp only [twos_complement16, pow_table16_getD bits (by omega), hne, ne_eq,
      not_false_eq_true, if_true, if_pos hb]
    exact twos_fold_neg val (bits - 1) (by omega)
  · have hne : val &&& 2 ^ bits = 0 := by
      rcases Nat.eq_zero_or_pos (val &&& 2 ^ bits) with h | h
      · exact h
      · exact absurd ((and_pow_ne val bits).mp h.ne') hb
    simp only [twos_complement16, pow_table16_getD bits (by omega), hne, ne_eq,
      not_true_eq_false, if_false, if_neg hb]
    exact twos_fold_pos val (bits - 1) (by omega)

theorem xor_pow_testBit (raw m b : ℕ) (h : m ≠ b) :
    (raw ^^^ 2 ^ m).testBit b = raw.testBit b := by
  rw [Nat.testBit_xor, Nat.testBit_two_pow_of_ne h, Bool.xor_false]

theorem xor_pow_mod (raw m : ℕ) : (raw ^^^ 2 ^ m) % 2 ^ m = raw % 2 ^ m := by
  apply Nat.eq_of_testBit_eq
  intro i
  simp only [Nat.testBit_mod_two_pow, Nat.testBit_xor]
  by_cases h : i < m
  · rw [Nat.testBit_two_pow_of_ne (by omega), Bool.xor_false]
  · simp [h]

theorem xor_one_and (raw M : ℕ) (hM : M.testBit 0 = false) :
    (raw ^^^ 1) &&& M = raw &&& M := by
  apply Nat.eq_of_testBit_eq
  intro i
  rw [Nat.testBit_and, Nat.testBit_and]
  cases i with
  | zero => rw [hM, Bool.and_false, Bool.and_false]
  | succ n =>
    rw [(show (1:ℕ) = 2 ^ 0 from rfl), Nat.testBit_xor,
      Nat.testBit_two_pow_of_ne (by omega), Bool.xor_false]

theorem pow_fold_nat (val : ℕ) :
    ∀ m : ℕ, m ≤ 16 →
      (List.range m).foldl
        (fun p n =>
          if val &&& pow_table16.getD n 0 ≠ 0 then p + pow_table16.getD n 0 else p) 0
      = val % 2 ^ m := by
  intro m
  induction m with
  | zero => simp [Nat.mod_one]
  | succ k ih =>
    intro hk
    rw [fold_step, ih (by omega), pow_table16_getD k (by omega), mod_two_pow_succ]
    by_cases hb : val.testBit k
    · rw [if_pos ((and_pow_ne val k).mpr hb), if_pos hb]
    · rw [if_neg (by simpa using (and_pow_ne val k).not.mpr (by simp [hb])), if_neg hb]
      omega

theorem power_magnitude_eq (raw : ℕ) : power_magnitude raw = raw % 2 ^ 15 :=
  pow_fold_nat raw 15 (by omega)

theorem and_fffe_even (y : ℕ) : (y &&& 65534) % 2 = 0 := by
  have h : (y &&& 65534).testBit 0 = false := by
    rw [Nat.testBit_and, (show (65534:ℕ).testBit 0 = false from rfl), Bool.and_false]
  rw [Nat.testBit_zero] at h
  rcases Nat.mod_two_eq_zero_or_one (y &&& 65534) with h2 | h2
  · exact h2
  · simp [h2] at h

/-- C1: the claim states that `_twos_complement16` decodes a field of
true width `bits + 1` with sign bit at position `bits` and magnitude
bits at positions `0 .. bits - 1`, and in particular that
`decode_signed(0x7FFF, 15) = 32767` and `decode_signed(0x8000, 15) = -32768`.
The code's loop runs over `range(0, bits - 1)` and therefore never reads
magnitude bit `bits - 1`: on the claim's own boundary inputs it returns
16383 and -16384 instead (`decode_signed(0x0000, 15) = 0` does hold). -/
theorem C1_twos_complement16_boundary :
    twos_complement16 0x0000 15 = 0 ∧
      twos_complement16 0x7FFF 15 = 16383 ∧
      twos_complement16 0x8000 15 = -16384 ∧
      twos_complement16 0x7FFF 15 ≠ 32767 ∧
      twos_complement16 0x8000 15 ≠ -32768 := by
  decide

/-- C2: the claim states that `_converson_delay` reads the 4-bit ADC
field of the stored configuration word for both axes and never maps a
reachable nonzero pattern to the index-0 default.  In the shunt branch
the code masks the register-address constant `self._register_config`
(0x00) instead of `self._config`, so every shunt lookup — here the
reachable patterns 0001 (config 0x0008) and 1111 (config 0x0078) —
returns the index-0 entry 0.000080; the bus branch of the same code
maps pattern 0001 to index 1 as the claim specifies. -/
theorem C2_shunt_delay_ignores_config :
    converson_delay 0x0008 register_shunt_voltage = conversion_times.getD 0 0 ∧
      converson_delay 0x0078 register_shunt_voltage = conversion_times.getD 0 0 ∧
      converson_delay 0x0080 register_bus_voltage = conversion_times.getD 1 0 ∧
      conversion_times.getD 0 0 = 0.000080 ∧
      conversion_times.getD 1 0 = 0.000146 ∧
      conversion_times.getD 0 0 ≠ conversion_times.getD 1 0 := by
  refine ⟨rfl, rfl, rfl, rfl, rfl, ?_⟩
  norm_num [conversion_times]

/-- C7 counterexample: the claim states that `_buf_to_int` fails for
every buffer whose length is anything other than two; the code only
asserts `len(buf) >= 2`, so a three-byte buffer is accepted and its
first two bytes are combined. -/
theorem C7_buf_to_int_counterexample :
    ([1, 2, 3] : List ℕ).length ≠ 2 ∧ buf_to_int [1, 2, 3] = some 258 := by
  decide

/-- C7 (amended): `_buf_to_int` combines the first two bytes of the
buffer big-endian — `(byte0 << 8) | byte1`, i.e. `256 * byte0 + byte1`
for byte-sized entries — whenever the buffer holds at least two bytes
(extra bytes are ignored), and fails (`AssertionError`, modelled as
`none`) exactly for buffers of fewer than two bytes. -/
theorem C7_buf_to_int_amended (b0 b1 : ℕ) (rest : List ℕ) (hb1 : b1 < 256) :
    buf_to_int (b0 :: b1 :: rest) = some (256 * b0 + b1) ∧
      ∀ buf : List ℕ, buf.length < 2 → buf_to_int buf = none := by
  constructor
  · simp only [buf_to_int, List.length_cons]
    rw [if_pos (by omega)]
    simp only [List.getD_cons_zero, List.getD_cons_succ]
    rw [Nat.shiftLeft_eq, Nat.mul_comm, ← Nat.mul_add_lt_is_or hb1 b0]
  · intro buf h
    simp only [buf_to_int]
    rw [if_neg (by omega)]

/-- C9: for every 16-bit raw value and bits value `b ∈ {12,13,14,15}`,
`_twos_complement16(raw, b)` lies in `[-2^(b-1), 2^(b-1) - 1]`, and
toggling bit `b - 1` of `raw` (the position the loop never reads) does
not change the returned value. -/
theorem C9_twos_complement16_range (raw b : ℕ) (hraw : raw < 65536)
    (hb : b ∈ ([12, 13, 14, 15] : List ℕ)) :
    (-(2 ^ (b - 1)) ≤ twos_complement16 raw b ∧
      twos_complement16 raw b ≤ 2 ^ (b - 1) - 1) ∧
    twos_complement16 (raw ^^^ 2 ^ (b - 1)) b = twos_complement16 raw b := by
  have hb1 : 1 ≤ b := by fin_cases hb <;> omega
  have hb15 : b ≤ 15 := by fin_cases hb <;> omega
  constructor
  · rw [twos_complement16_eq raw b hb1 hb15]
    have hlt : raw % 2 ^ (b - 1) < 2 ^ (b - 1) := Nat.mod_lt _ (Nat.two_pow_pos _)
    have hlt' : ((raw % 2 ^ (b - 1) : ℕ) : ℤ) < 2 ^ (b - 1) := by exact_mod_cast hlt
    have hnn : (0 : ℤ) ≤ ((raw % 2 ^ (b - 1) : ℕ) : ℤ) := Int.ofNat_nonneg _
    have hP : (0 : ℤ) < 2 ^ (b - 1) := by positivity
    by_cases h : raw.testBit b = true
    · rw [if_pos h]
      exact ⟨by linarith, by linarith⟩
    · rw [if_neg h]
      exact ⟨by linarith, by linarith⟩
  · rw [twos_complement16_eq _ b hb1 hb15, twos_complement16_eq raw b hb1 hb15,
      xor_pow_testBit raw (b - 1) b (by omega), xor_pow_mod raw (b - 1)]

theorem C9_witness :
    (-(2 ^ (15 - 1)) ≤ twos_complement16 40000 15 ∧
      twos_complement16 40000 15 ≤ 2 ^ (15 - 1) - 1) ∧
    twos_complement16 (40000 ^^^ 2 ^ (15 - 1)) 15 = twos_complement16 40000 15 :=
  C9_twos_complement16_range 40000 15 (by decide) (by decide)

/-- C10: `power_down` changes the stored 16-bit configuration word only
by clearing its low three (mode) bits: bits 3 through 15 are unchanged
and bits 0 through 2 are cleared. -/
theorem C10_power_down_frame (config : ℕ) (h : config < 65536) :
    (∀ i : ℕ, 3 ≤ i → i ≤ 15 → (power_down config).testBit i = config.testBit i) ∧
      (∀ i : ℕ, i < 3 → (power_down config).testBit i = false) := by
  constructor
  · intro i h3 h15
    rw [power_down, Nat.testBit_and,
      (show (0b1111111111111000 : ℕ).testBit i = true by interval_cases i <;> decide),
      Bool.and_true]
  · intro i hi
    rw [power_down, Nat.testBit_and,
      (show (0b1111111111111000 : ℕ).testBit i = false by interval_cases i <;> decide),
      Bool.and_false]

theorem C10_witness :
    (power_down 0xABCD).testBit 4 = (0xABCD : ℕ).testBit 4 ∧
      (power_down 0xABCD).testBit 15 = (0xABCD : ℕ).testBit 15 ∧
      (power_down 0xABCD).testBit 0 = false :=
  ⟨(C10_power_down_frame 0xABCD (by decide)).1 4 (by decide) (by decide),
   (C10_power_down_frame 0xABCD (by decide)).1 15 (by decide) (by decide),
   (C10_power_down_frame 0xABCD (by decide)).2 0 (by decide)⟩

/-- C8: `power` returns the sum of the place values of the low 15 bits
of the raw word — an unsigned magnitude, i.e. `raw mod 2^15` — times
`current_lsb`, times `vbus_lsb`, times exactly 5000; bit 15 of the raw
word never affects the result. -/
theorem C8_power (raw : ℕ) (clsb vlsb : ℚ) (hraw : raw < 65536) :
    power raw clsb vlsb = ((raw % 2 ^ 15 : ℕ) : ℚ) * clsb * vlsb * 5000 ∧
      power (raw ^^^ 2 ^ 15) clsb vlsb = power raw clsb vlsb := by
  constructor
  · rw [power, power_magnitude_eq raw]
    norm_num
  · rw [power, power, power_magnitude_eq, power_magnitude_eq, xor_pow_mod raw 15]

theorem C8_witness :
    power 40000 (1 / 512) (1 / 250) =
        ((40000 % 2 ^ 15 : ℕ) : ℚ) * (1 / 512) * (1 / 250) * 5000 ∧
      power (40000 ^^^ 2 ^ 15) (1 / 512) (1 / 250) = power 40000 (1 / 512) (1 / 250) :=
  C8_power 40000 (1 / 512) (1 / 250) (by decide)

/-- Modelled from the spec (operation `bus_voltage`): the shift-and-mask
formula per resolution — 12-bit: `(raw & 0x7FF8) >> 3`; 13-bit:
`(raw & 0xFFF8) >> 3`; 14-bit: `(raw & 0xFFFC) >> 2` — times the fixed
LSB constant 0.004 volts.  Used only to compare the code's
`bus_voltage_from` against the claim's formula. -/
def bus_voltage_claim (raw bits : ℕ) : ℚ :=
  ((if bits = 12 then (raw &&& 0x7FF8) >>> 3
    else if bits = 13 then (raw &&& 0xFFF8) >>> 3
    else if bits = 14 then (raw &&& 0xFFFC) >>> 2
    else 0 : ℕ) : ℚ) * 0.004

/-- C4: for every 16-bit raw value, `bus_voltage` computes the returned
volts by the claimed resolution-dependent shift-and-mask formula times
0.004, and the overflow flag in bit 0 of the raw word never contributes
to the returned value (toggling bit 0 leaves the result unchanged). -/
theorem C4_bus_voltage (raw bits : ℕ) (hraw : raw < 65536)
    (hbits : bits ∈ ([12, 13, 14] : List ℕ)) :
    bus_voltage_from raw bits = bus_voltage_claim raw bits ∧
      bus_voltage_from (raw ^^^ 1) bits = bus_voltage_from raw bits := by
  fin_cases hbits <;>
    refine ⟨by norm_num [bus_voltage_from, bus_voltage_claim, VbusLSB], ?_⟩ <;>
    norm_num [bus_voltage_from, VbusLSB] <;>
    rw [xor_one_and raw _ (by decide)]

theorem C4_witness :
    bus_voltage_from 8 12 = bus_voltage_claim 8 12 ∧
      bus_voltage_from 8 12 = 0.004 ∧
      bus_voltage_from (8 ^^^ 1) 12 = bus_voltage_from 8 12 :=
  ⟨(C4_bus_voltage 8 12 (by decide) (by decide)).1,
   by norm_num [bus_voltage_from, VbusLSB]; decide,
   (C4_bus_voltage 8 12 (by decide) (by decide)).2⟩

/-- C5: the resolution decoder maps the two shunt PGA bits (bits 12 and
11 of the configuration word) by 00→12, 01→13, 10→14, 11→15, and the
two bus-range bits (bits 14 and 13) by 00→12, 01→13, 10→14, 11→14
(both top codes alias to 14); and synthesizing the configuration word
for each full-scale shunt voltage in {40, 80, 160, 320} mV then decoding
the shunt resolution yields 12, 13, 14, 15 respectively. -/
theorem C5_resolution (c : ℕ) (bv sv : ℚ) (bavg savg mode : ℕ)
    (hsv : sv ∈ ([40, 80, 160, 320] : List ℚ)) :
    (resolution c "PG" =
        if c.testBit 12 then (if c.testBit 11 then 15 else 14)
        else (if c.testBit 11 then 13 else 12)) ∧
      (resolution c "BRNG" =
        if c.testBit 14 then 14 else (if c.testBit 13 then 13 else 12)) ∧
      resolution (init_config bv sv bavg savg mode) "PG" =
        (if sv = 320 then 15 else if sv = 160 then 14 else if sv = 80 then 13 else 12) :=
  ⟨resolution_PG c, resolution_BRNG c, resolution_PG_of_init bv sv bavg savg mode hsv⟩

theorem C5_witness :
    resolution 0x6800 "BRNG" = 14 ∧
      resolution 0x6800 "PG" = 13 ∧
      resolution (init_config 16 40 0 0 7) "PG" = 12 ∧
      resolution (init_config 16 320 0 0 7) "PG" = 15 :=
  ⟨((C5_resolution 0x6800 16 40 0 0 7 (by norm_num)).2.1).trans (by decide),
   ((C5_resolution 0x6800 16 40 0 0 7 (by norm_num)).1).trans (by decide),
   ((C5_resolution 0 16 40 0 0 7 (by norm_num)).2.2).trans (by norm_num),
   ((C5_resolution 0 16 320 0 0 7 (by norm_num)).2.2).trans (by norm_num)⟩

/-- Modelled from the spec: the monotonic 3-bit averaging-count code
`1→000, 2→001, 4→010, 8→011, 16→100, 32→101, 64→110, 128→111`.  Used
only to compare the synthesized ADC fields against the claim. -/
def averaging_code : ℕ → ℕ
  | 1 => 0b000
  | 2 => 0b001
  | 4 => 0b010
  | 8 => 0b011
  | 16 => 0b100
  | 32 => 0b101
  | 64 => 0b110
  | 128 => 0b111
  | _ => 0

/-- Modelled from the spec: the shunt resolution code selected by
`full_scale_shunt_voltage` when shunt averaging is off — 40 mV: no bits
set (12-bit), 80 mV: the 13-bit code, 160 mV: the 14-bit code, 320 mV:
the 15-bit code.  Used only to compare the synthesized SADC field
against the claim. -/
def shunt_resolution_code (sv : ℚ) : ℕ :=
  if sv = 80 then 0b001 else if sv = 160 then 0b010 else if sv = 320 then 0b011 else 0b000

/-- C6: configuration synthesis encodes the ADC fields as claimed: a
nonzero bus averaging count sets BADC3 (bit 10) and puts the 3-bit
averaging code in the low BADC bits (bits 7-9); a nonzero shunt
averaging count sets SADC3 (bit 6) and puts the same code in the low
SADC bits (bits 3-5); a zero shunt averaging count puts the
resolution code selected by the full-scale shunt voltage there. -/
theorem C6_adc_fields (bv sv : ℚ) (bavg savg mode : ℕ)
    (hsv : sv ∈ ([40, 80, 160, 320] : List ℚ))
    (hbavg : bavg ∈ ([0, 1, 2, 4, 8, 16, 32, 64, 128] : List ℕ))
    (hsavg : savg ∈ ([0, 1, 2, 4, 8, 16, 32, 64, 128] : List ℕ)) :
    (bavg ≠ 0 →
      init_config bv sv bavg savg mode &&& 1920 = 1024 ||| (averaging_code bavg <<< 7)) ∧
    (savg ≠ 0 →
      init_config bv sv bavg savg mode &&& 120 = 64 ||| (averaging_code savg <<< 3)) ∧
    (savg = 0 →
      init_config bv sv bavg savg mode &&& 120 = shunt_resolution_code sv <<< 3) := by
  refine ⟨fun hb => ?_, fun hs => ?_, fun hs => ?_⟩
  · rw [init_config, badc_field]
    fin_cases hbavg <;> simp_all [averaging_code]
  · rw [init_config, sadc_field]
    fin_cases hsavg <;> simp_all [averaging_code]
  · subst hs
    rw [init_config, sadc_field]
    simp only [if_pos rfl]
    simp only [List.mem_cons, List.not_mem_nil, or_false] at hsv
    rcases hsv with rfl | rfl | rfl | rfl <;> norm_num [shunt_resolution_code] <;> decide

theorem C6_witness :
    (8 : ℕ) ≠ 0 ∧
      init_config 16 320 8 0 7 &&& 1920 = 1024 ||| (averaging_code 8 <<< 7) ∧
      init_config 16 320 0 4 7 &&& 120 = 64 ||| (averaging_code 4 <<< 3) ∧
      init_config 16 320 0 0 7 &&& 120 = shunt_resolution_code 320 <<< 3 :=
  ⟨by decide,
   (C6_adc_fields 16 320 8 0 7 (by norm_num) (by decide) (by decide)).1 (by decide),
   (C6_adc_fields 16 320 0 4 7 (by norm_num) (by decide) (by decide)).2.1 (by decide),
   (C6_adc_fields 16 320 0 0 7 (by norm_num) (by decide) (by decide)).2.2 rfl⟩

/-- C3: for every positive shunt resistance (milliohms) and every valid
full-scale shunt voltage (millivolts), the calibration derivation of
`ISL28022.__init__` satisfies
`current_full_scale = shunt_full_scale_voltage(V) / shunt_resistance(Ω)`,
`current_lsb = current_full_scale / 2^(shunt resolution bits)` with the
resolution bits decoded from the synthesized configuration word
(40→12, 80→13, 160→14, 320→15), and the stored calibration register
value is `floor((2^12 × 0.000010) / (current_lsb × shunt_resistance(Ω)))`
with its least-significant bit cleared, hence even; in particular for
full-scale 0.320 V, resistance 0.005 Ω and 15 resolution bits,
`current_full_scale = 64.0` and `current_lsb = 0.0019531250` exactly. -/
theorem C3_calibration (bv sv r : ℚ) (bavg savg mode : ℕ)
    (hsv : sv ∈ ([40, 80, 160, 320] : List ℚ)) (hr : 0 < r) :
    CurrentFS sv r = (sv / 1000) / (r / 1000) ∧
    CurrentLSB sv r (init_config bv sv bavg savg mode) =
      CurrentFS sv r /
        2 ^ (if sv = 320 then 15 else if sv = 160 then 14 else if sv = 80 then 13 else 12) ∧
    0 ≤ CalRegVal sv r (init_config bv sv bavg savg mode) ∧
    calib sv r (init_config bv sv bavg savg mode) =
      (⌊((2 : ℚ) ^ 12 * 0.000010) /
          (CurrentLSB sv r (init_config bv sv bavg savg mode) * (r / 1000))⌋).toNat
        &&& 0xfffe ∧
    calib sv r (init_config bv sv bavg savg mode) % 2 = 0 ∧
    CurrentFS 320 5 = 64 ∧
    CurrentLSB 320 5 (init_config bv 320 bavg savg mode) = 0.0019531250 ∧
    calib 320 5 (init_config bv 320 bavg savg mode) = 4194 := by
  have hsv4 : sv = 40 ∨ sv = 80 ∨ sv = 160 ∨ sv = 320 := by simpa using hsv
  have hsv0 : 0 < sv := by rcases hsv4 with rfl | rfl | rfl | rfl <;> norm_num
  have h15 : resolution (init_config bv 320 bavg savg mode) "PG" = 15 := by
    rw [resolution_PG_of_init bv 320 bavg savg mode (by norm_num)]
    norm_num
  refine ⟨by norm_num [CurrentFS, mV2V, mOhm2Ohm], ?_, ?_, ?_, ?_, ?_, ?_, ?_⟩
  · rw [CurrentLSB, resolution_PG_of_init bv sv bavg savg mode hsv]
  · simp only [CalRegVal, CurrentLSB, CurrentFS, mV2V, mOhm2Ohm]
    positivity
  · simp only [calib, CalRegVal]
    rw [(show mOhm2Ohm r = r / 1000 from by norm_num [mOhm2Ohm])]
  · exact and_fffe_even _
  · norm_num [CurrentFS, mV2V, mOhm2Ohm]
  · rw [CurrentLSB, h15]
    norm_num [CurrentFS, mV2V, mOhm2Ohm]
  · simp only [calib, CalRegVal, CurrentLSB, CurrentFS, mV2V, mOhm2Ohm, h15]
    rw [(show ((2 : ℚ) ^ 12 * 0.000010) / (320 / 1000.0 / (5 / 1000.0) / 2 ^ 15 * (5 / 1000.0)) =
        524288 / 125 from by norm_num)]
    rw [(show (⌊(524288 : ℚ) / 125⌋ = 4194) from Int.floor_eq_iff.mpr (by norm_num))]
    decide

theorem C3_witness :
    CurrentFS 320 5 = 64 ∧
      CurrentLSB 320 5 (init_config 16 320 0 0 7) = 0.0019531250 ∧
      calib 320 5 (init_config 16 320 0 0 7) % 2 = 0 ∧
      calib 320 5 (init_config 16 320 0 0 7) = 4194 :=
  ⟨(C3_calibration 16 320 5 0 0 7 (by norm_num) (by norm_num)).2.2.2.2.2.1,
   (C3_calibration 16 320 5 0 0 7 (by norm_num) (by norm_num)).2.2.2.2.2.2.1,
   (C3_calibration 16 320 5 0 0 7 (by norm_num) (by norm_num)).2.2.2.2.1,
   (C3_calibration 16 320 5 0 0 7 (by norm_num) (by norm_num)).2.2.2.2.2.2.2⟩

theorem C7_witness :
    buf_to_int [1, 2] = some 258 ∧ buf_to_int [5] = none :=
  ⟨(C7_buf_to_int_amended 1 2 [] (by decide)).1,
   (C7_buf_to_int_amended 1 2 [] (by decide)).2 [5] (by decide)⟩

end ISL28022
